import Mathlib

set_option maxRecDepth 10000
set_option maxHeartbeats 1000000

/-! Shallow embedding of the 2dToSTL repository (`api_key_manager.py` and
`streamlit-cad-app.py`) together with theorems checking the specification
claims against it.  Python strings are modelled as `String`, byte strings as
`List Nat` (each byte below 256), and Python dictionaries as association
lists looked up with `List.lookup` (first hit wins). -/

/-- State visible to `APIKeyManager`: the managed secret store `st.secrets`,
the session cache `st.session_state` and the process environment
`os.environ`, each a string-keyed string dictionary. -/
structure StreamlitCtx where
  secrets : List (String × String)
  session_state : List (String × String)
  environ : List (String × String)
deriving DecidableEq

/-- `APIKeyManager.get_api_key` (api_key_manager.py lines 8-14): if
STABILITY_API_KEY is present in `st.secrets` return its value, else if
stability_api_key is present in `st.session_state` return its value, else
return `os.getenv` of STABILITY_API_KEY. -/
def get_api_key (ctx : StreamlitCtx) : Option String :=
  match ctx.secrets.lookup "STABILITY_API_KEY" with
  | some v => some v
  | none =>
    match ctx.session_state.lookup "stability_api_key" with
    | some v => some v
    | none => ctx.environ.lookup "STABILITY_API_KEY"

/-- Python truthiness of an `Optional[str]` value: `None` and the empty
string are falsy, every other string is truthy. -/
def truthyOpt : Option String → Bool
  | none => false
  | some s => s != ""

/-- Assignment into a string-keyed dictionary (`d[k] = v`): the new binding
shadows and replaces any previous binding of the same key. -/
def setKey (d : List (String × String)) (k v : String) : List (String × String) :=
  (k, v) :: d.filter (fun p => p.1 != k)

/-- Outcome of one run of `setup_api_key_ui`: the function either returns a
value to its caller, or aborts the whole script via `st.stop()` (which
raises and never returns). -/
inductive SetupResult where
  | returned (b : Bool)
  | stopped
deriving DecidableEq

/-- `APIKeyManager.setup_api_key_ui` (api_key_manager.py lines 17-39).
`new_api_key` is the text currently held by the sidebar input field (the
empty string when the user has supplied nothing).  Returns the outcome
together with the updated context, reflecting the assignments to
`st.session_state.stability_api_key` and `os.environ` on the caching path. -/
def setup_api_key_ui (ctx : StreamlitCtx) (new_api_key : String) :
    SetupResult × StreamlitCtx :=
  let api_key := get_api_key ctx
  if truthyOpt api_key then (.returned true, ctx)
  else if new_api_key != "" then
    (.returned true,
      ⟨ctx.secrets,
       setKey ctx.session_state "stability_api_key" new_api_key,
       setKey ctx.environ "STABILITY_API_KEY" new_api_key⟩)
  else (.stopped, ctx)

/-- How `main` (streamlit-cad-app.py lines 130-132) begins: the credential
gate.  `haltedByGuard` is the branch where `setup_api_key_ui` returned a
falsy value and `main` shows an error and calls `st.stop()`;
`haltedBySetupStop` means `setup_api_key_ui` itself aborted the script;
`proceeded` means the rest of `main` (including any generation request)
runs. -/
inductive MainOutcome where
  | haltedBySetupStop
  | haltedByGuard
  | proceeded
deriving DecidableEq

/-- The credential gate at the top of `main`. -/
def main_entry (ctx : StreamlitCtx) (new_api_key : String) :
    MainOutcome × StreamlitCtx :=
  match setup_api_key_ui ctx new_api_key with
  | (.stopped, ctx2) => (.haltedBySetupStop, ctx2)
  | (.returned b, ctx2) =>
    if b then (.proceeded, ctx2) else (.haltedByGuard, ctx2)

/-- Claim C3: `get_api_key` checks the managed secret store under
STABILITY_API_KEY, then the session cache, then the environment variable, in
strict order, and returns the first value found; in particular a populated
earlier source wins, a later source is only consulted when all earlier
sources are empty, and with no source populated the result is `none`. -/
theorem c3_get_api_key_order (ctx : StreamlitCtx) :
    (∀ v, ctx.secrets.lookup "STABILITY_API_KEY" = some v →
      get_api_key ctx = some v)
    ∧ (ctx.secrets.lookup "STABILITY_API_KEY" = none →
      ∀ v, ctx.session_state.lookup "stability_api_key" = some v →
        get_api_key ctx = some v)
    ∧ (ctx.secrets.lookup "STABILITY_API_KEY" = none →
      ctx.session_state.lookup "stability_api_key" = none →
      get_api_key ctx = ctx.environ.lookup "STABILITY_API_KEY")
    ∧ (ctx.secrets.lookup "STABILITY_API_KEY" = none →
      ctx.session_state.lookup "stability_api_key" = none →
      ctx.environ.lookup "STABILITY_API_KEY" = none →
      get_api_key ctx = none) := by
  unfold get_api_key
  refine ⟨fun v hv => ?_, fun h1 v hv => ?_, fun h1 h2 => ?_, fun h1 h2 h3 => ?_⟩ <;>
    simp only [*]

/-- Concrete check for C3: with only the secret store populated, the stored
value is returned. -/
theorem c3_witness :
    get_api_key ⟨[("STABILITY_API_KEY", "sk-test")], [], []⟩ = some "sk-test" :=
  (c3_get_api_key_order ⟨[("STABILITY_API_KEY", "sk-test")], [], []⟩).1 "sk-test" rfl

/-- Claim C9: `setup_api_key_ui` never returns a falsy value: every run
either returns `True` or aborts the script via `st.stop()`; consequently the
branch of `main` that tests a falsy return value and shows the
credential-missing error is unreachable. -/
theorem c9_setup_never_false (ctx : StreamlitCtx) (new_api_key : String) :
    ((setup_api_key_ui ctx new_api_key).1 = .returned true
      ∨ (setup_api_key_ui ctx new_api_key).1 = .stopped)
    ∧ (main_entry ctx new_api_key).1 ≠ .haltedByGuard := by
  unfold main_entry setup_api_key_ui
  by_cases h1 : truthyOpt (get_api_key ctx) <;>
    by_cases h2 : new_api_key != "" <;>
      simp [h1, h2]

/-- Concrete instance of C9 at an empty context and empty input. -/
theorem c9_witness :
    ((setup_api_key_ui ⟨[], [], []⟩ "").1 = .returned true
      ∨ (setup_api_key_ui ⟨[], [], []⟩ "").1 = .stopped)
    ∧ (main_entry ⟨[], [], []⟩ "").1 ≠ .haltedByGuard :=
  c9_setup_never_false ⟨[], [], []⟩ ""

/-- Counterexample to claim C5 as stated: when the managed secret store maps
STABILITY_API_KEY to the empty string, the interactive path is reached and a
non-empty key supplied there is cached into both the session cache and the
environment with `True` returned, but every subsequent `get_api_key` still
returns the higher-priority (empty) secret-store value rather than the
cached key, so the next `setup_api_key_ui` run prompts again and stops. -/
theorem c5_counterexample :
    setup_api_key_ui ⟨[("STABILITY_API_KEY", "")], [], []⟩ "sk-new"
      = (.returned true,
        ⟨[("STABILITY_API_KEY", "")], [("stability_api_key", "sk-new")],
         [("STABILITY_API_KEY", "sk-new")]⟩)
    ∧ get_api_key
        ⟨[("STABILITY_API_KEY", "")], [("stability_api_key", "sk-new")],
         [("STABILITY_API_KEY", "sk-new")]⟩ = some ""
    ∧ setup_api_key_ui
        ⟨[("STABILITY_API_KEY", "")], [("stability_api_key", "sk-new")],
         [("STABILITY_API_KEY", "sk-new")]⟩ ""
      = (.stopped,
        ⟨[("STABILITY_API_KEY", "")], [("stability_api_key", "sk-new")],
         [("STABILITY_API_KEY", "sk-new")]⟩) := by
  decide

/-- Claim C5 amended: provided no source currently yields a value
(`get_api_key` returns `none`), supplying a non-empty credential through the
interactive setup caches it into both the session cache and the process
environment and returns `True`; afterwards `get_api_key` returns that
non-empty credential and every subsequent `setup_api_key_ui` run returns
`True` immediately, without re-prompting. -/
theorem c5_amended (ctx : StreamlitCtx) (key : String)
    (hnone : get_api_key ctx = none) (hkey : key ≠ "") :
    (setup_api_key_ui ctx key).1 = .returned true
    ∧ ((setup_api_key_ui ctx key).2).session_state.lookup "stability_api_key"
        = some key
    ∧ ((setup_api_key_ui ctx key).2).environ.lookup "STABILITY_API_KEY"
        = some key
    ∧ get_api_key (setup_api_key_ui ctx key).2 = some key
    ∧ ∀ later_input,
        setup_api_key_ui (setup_api_key_ui ctx key).2 later_input
          = (.returned true, (setup_api_key_ui ctx key).2) := by
  have hsec : ctx.secrets.lookup "STABILITY_API_KEY" = none := by
    revert hnone; unfold get_api_key
    cases ctx.secrets.lookup "STABILITY_API_KEY" <;> simp
  have ht : truthyOpt (get_api_key ctx) = false := by rw [hnone]; rfl
  have hstep : setup_api_key_ui ctx key
      = (.returned true,
        ⟨ctx.secrets,
         setKey ctx.session_state "stability_api_key" key,
         setKey ctx.environ "STABILITY_API_KEY" key⟩) := by
    unfold setup_api_key_ui
    simp [ht, hkey]
  have hlook : (setKey ctx.session_state "stability_api_key" key).lookup
      "stability_api_key" = some key := by
    simp [setKey, List.lookup]
  have hlook2 : (setKey ctx.environ "STABILITY_API_KEY" key).lookup
      "STABILITY_API_KEY" = some key := by
    simp [setKey, List.lookup]
  have hget : get_api_key (setup_api_key_ui ctx key).2 = some key := by
    rw [hstep]
    unfold get_api_key
    simp only [hsec, hlook]
  have hfinal : ∀ c2 : StreamlitCtx, truthyOpt (get_api_key c2) = true →
      ∀ inp, setup_api_key_ui c2 inp = (.returned true, c2) := by
    intro c2 h2 inp
    unfold setup_api_key_ui
    simp [h2]
  exact ⟨by rw [hstep], by rw [hstep]; exact hlook, by rw [hstep]; exact hlook2,
    hget, fun later_input =>
      hfinal _ (by rw [hget]; simpa [truthyOpt] using hkey) later_input⟩

/-- Concrete check for amended C5: starting from a fully empty context and
supplying "sk-new", the cached key is subsequently resolved. -/
theorem c5_witness :
    get_api_key (setup_api_key_ui ⟨[], [], []⟩ "sk-new").2 = some "sk-new" :=
  (c5_amended ⟨[], [], []⟩ "sk-new" rfl (by decide)).2.2.2.1

/-- Counterexample to claim C6 as stated: with no credential in any source
and an empty user input, `setup_api_key_ui` does not report failure to its
caller by returning a falsy value: it aborts the script via `st.stop()`
(outcome `stopped`, which is not the return of `False`). -/
theorem c6_counterexample :
    setup_api_key_ui ⟨[], [], []⟩ "" = (.stopped, ⟨[], [], []⟩)
    ∧ SetupResult.stopped ≠ SetupResult.returned false := by
  decide

/-- Claim C6 amended: when no credential is found in any source and the user
supplies nothing, `setup_api_key_ui` does not return to its caller at all:
it halts the script directly via `st.stop()`.  The workflow is still halted,
so no generation request is ever issued without a credential. -/
theorem c6_amended (ctx : StreamlitCtx) (hnone : get_api_key ctx = none) :
    setup_api_key_ui ctx "" = (.stopped, ctx)
    ∧ (main_entry ctx "").1 = .haltedBySetupStop
    ∧ (main_entry ctx "").1 ≠ .proceeded := by
  have ht : truthyOpt (get_api_key ctx) = false := by rw [hnone]; rfl
  have hstep : setup_api_key_ui ctx "" = (.stopped, ctx) := by
    unfold setup_api_key_ui
    simp [ht]
  refine ⟨hstep, ?_, ?_⟩ <;> (unfold main_entry; rw [hstep]; try simp)

/-- Concrete check for amended C6: an empty context with empty input halts
via the stop mechanism. -/
theorem c6_witness : (main_entry ⟨[], [], []⟩ "").1 = .haltedBySetupStop :=
  (c6_amended ⟨[], [], []⟩ rfl).2.1

/-- Values of the `data` form fields of the generation request.  The
foreground-ratio slider produces a float, modelled as a rational number (no
claim computes with it). -/
inductive ParamValue where
  | str (s : String)
  | int (n : Int)
  | float (q : ℚ)
deriving DecidableEq

/-- The parameter dictionary assembled in `main`
(streamlit-cad-app.py lines 188-197): remesh, vertex_count and
foreground_ratio are inserted, then vertex_count is popped when it equals
the -1 sentinel. -/
def prepare_params (remesh_option : String) (vertex_count : Int)
    ( foreground_ratio : ℚ) : List (String × ParamValue) :=
  let params : List (String × ParamValue) :=
    [("remesh", .str remesh_option),
     ("vertex_count", .int vertex_count),
     ("foreground_ratio", .float foreground_ratio)]
  if vertex_count = -1 then params.filter (fun p => p.1 != "vertex_count")
  else params

/-- Claim C4: for vertex_count = -1 the outbound parameter set contains no
vertex_count field; for every value in [0, 20000] the field is present and
equals that value. -/
theorem c4_vertex_count (remesh_option : String) (vertex_count : Int) (q : ℚ) :
    (vertex_count = -1 →
      (prepare_params remesh_option vertex_count q).lookup "vertex_count" = none)
    ∧ (0 ≤ vertex_count → vertex_count ≤ 20000 →
      (prepare_params remesh_option vertex_count q).lookup "vertex_count"
        = some (.int vertex_count)) := by
  constructor
  · intro h
    subst h
    rfl
  · intro h0 h1
    have hne : ¬ vertex_count = -1 := by omega
    unfold prepare_params
    simp only [if_neg hne]
    rfl

/-- Concrete check for C4: vertex_count 500 is sent through unchanged. -/
theorem c4_witness :
    (prepare_params "none" 500 (17 / 20)).lookup "vertex_count"
      = some (.int 500) :=
  (c4_vertex_count "none" 500 (17 / 20)).2 (by decide) (by decide)

/-- JSON values as produced by `response.json()`.  Numbers are modelled as
integers (no claim computes with fractional numbers); objects are
association lists with string keys, as produced by Python's json decoder. -/
inductive Json where
  | null
  | bool (b : Bool)
  | num (n : Int)
  | str (s : String)
  | arr (elems : List Json)
  | obj (entries : List (String × Json))

/-- One character of Python's `repr` of a string: the backslash and the
active quote character are escaped, as are newline, carriage return and tab;
printable characters pass through unchanged. -/
def pyEscapeChar (q c : Char) : String :=
  if c = '\\' then "\\\\"
  else if c = q then String.mk ['\\', q]
  else if c = '\n' then "\\n"
  else if c = '\r' then "\\r"
  else if c = '\t' then "\\t"
  else String.singleton c

/-- Python's `repr` of a string (restricted to printable characters): single
quotes unless the string holds a single quote but no double quote. -/
def pyQuote (s : String) : String :=
  let q : Char :=
    if s.data.contains (Char.ofNat 39) && !(s.data.contains (Char.ofNat 34)) then
      Char.ofNat 34
    else Char.ofNat 39
  String.singleton q ++ String.join (s.data.map (pyEscapeChar q)) ++ String.singleton q

mutual

/-- Python's `repr` of a decoded JSON value (which for containers is also
its `str`): `None`/`True`/`False`, decimal integers, quoted strings, lists
in square brackets and dicts in braces with `repr` keys. -/
def pyRepr : Json → String
  | .null => "None"
  | .bool true => "True"
  | .bool false => "False"
  | .num n => toString n
  | .str s => pyQuote s
  | .arr elems => "[" ++ pyReprElems elems ++ "]"
  | .obj entries => "\x7b" ++ pyReprEntries entries ++ "\x7d"

/-- Comma-separated `repr` of list elements. -/
def pyReprElems : List Json → String
  | [] => ""
  | [j] => pyRepr j
  | j :: rest => pyRepr j ++ ", " ++ pyReprElems rest

/-- Comma-separated `repr(key): repr(value)` of dict entries. -/
def pyReprEntries : List (String × Json) → String
  | [] => ""
  | [(k, v)] => pyQuote k ++ ": " ++ pyRepr v
  | (k, v) :: rest => pyQuote k ++ ": " ++ pyRepr v ++ ", " ++ pyReprEntries rest

end

/-- Python's `str` of a decoded JSON value, as applied by an f-string:
strings pass through unquoted, every other value renders as its `repr`. -/
def pyStr : Json → String
  | .str s => s
  | j => pyRepr j

/-- Bytes of an ASCII string. -/
def asciiBytes (s : String) : List Nat := s.data.map Char.toNat

/-- ASCII decoding of a byte string. -/
def asciiStr (bs : List Nat) : String := String.mk (bs.map Char.ofNat)

/-- An HTTP response as seen by `generate_3d_model` once `requests.post`
has returned: the status code, the raw body bytes (`response.content`) and
the result of `response.json()` (`none` models a body that is not valid
JSON, where `response.json()` raises a JSON-decoding error). -/
structure Response where
  status_code : Nat
  content : List Nat
  json : Option Json

/-- What `generate_3d_model` can raise past the point where the response is
available: the explicit `Exception(f"API Error: ...")`, the JSON-decoding
error propagated out of `response.json()`, or the AttributeError raised by
calling `.get` on a non-dict JSON body.  The surrounding try/except logs and
re-raises, so the raised error is unchanged. -/
inductive GenException where
  | exception (msg : String)
  | jsonDecodeError
  | attributeError
deriving DecidableEq

/-- `StabilityAI3DGenerator.generate_3d_model` (streamlit-cad-app.py lines
48-56), modelled from the point the HTTP response is available (image
serialization and the POST itself belong to external libraries; the
simulated response is the input).  On status 200 the body bytes are
returned; otherwise `error_msg = response.json().get('message',
str(response.json()))` is computed and `Exception(f"API Error:
{error_msg}")` is raised, with `response.json()` itself raising on a
non-JSON body and `.get` raising on a non-dict body. -/
def generate_3d_model (response : Response) : Except GenException (List Nat) :=
  if response.status_code = 200 then .ok response.content
  else
    match response.json with
    | none => .error .jsonDecodeError
    | some j =>
      match j with
      | .obj entries =>
        let error_msg : String :=
          match entries.lookup "message" with
          | some v => pyStr v
          | none => pyStr (.obj entries)
        .error (.exception ("API Error: " ++ error_msg))
      | _ => .error .attributeError

/-- A non-200 response whose JSON body carries a message field. -/
def respA : Response :=
  ⟨400, asciiBytes "\x7b\"message\": \"bad request\"\x7d",
   some (.obj [("message", .str "bad request")])⟩

/-- A non-200 response whose JSON body has no message field. -/
def respB : Response :=
  ⟨400, asciiBytes "\x7b\"error\": \"oops\"\x7d",
   some (.obj [("error", .str "oops")])⟩

/-- Counterexample to claim C1 as stated: for body
`\x7b"message": "bad request"\x7d` the raised error message is
"API Error: bad request", which is not equal to "bad request"; and for a
JSON body without a message field the fallback is the Python `str` of the
parsed JSON (here "API Error: \x7b'error': 'oops'\x7d"), which differs from
the raw response body (and from the raw body even with the prefix added). -/
theorem c1_counterexample :
    generate_3d_model respA = .error (.exception "API Error: bad request")
    ∧ "API Error: bad request" ≠ "bad request"
    ∧ generate_3d_model respB
        = .error (.exception "API Error: \x7b\x27error\x27: \x27oops\x27\x7d")
    ∧ "API Error: \x7b\x27error\x27: \x27oops\x27\x7d" ≠ asciiStr respB.content
    ∧ "API Error: \x7b\x27error\x27: \x27oops\x27\x7d"
        ≠ "API Error: " ++ asciiStr respB.content :=
  ⟨rfl, by decide, rfl, by decide, by decide⟩

/-- Claim C1 amended: for every non-200 response whose body parses as a JSON
object, if a message field is present the raised error message is
"API Error: " followed by that field's value (as rendered by Python `str`);
if the field is absent, it is "API Error: " followed by the Python `str` of
the parsed JSON object (not the raw response body). -/
theorem c1_amended (resp : Response) (hs : resp.status_code ≠ 200)
    (entries : List (String × Json)) (hj : resp.json = some (.obj entries)) :
    (∀ v, entries.lookup "message" = some v →
      generate_3d_model resp = .error (.exception ("API Error: " ++ pyStr v)))
    ∧ (entries.lookup "message" = none →
      generate_3d_model resp
        = .error (.exception ("API Error: " ++ pyStr (.obj entries)))) := by
  unfold generate_3d_model
  rw [if_neg hs, hj]
  constructor
  · intro v hv
    simp only [hv]
  · intro hv
    simp only [hv]

/-- Concrete check for amended C1: the message-field value appears after the
"API Error: " prefix. -/
theorem c1_witness :
    generate_3d_model respA
      = .error (.exception ("API Error: " ++ pyStr (.str "bad request"))) :=
  (c1_amended respA (by decide) [("message", .str "bad request")] rfl).1
    (.str "bad request") rfl

/-- Claim C7: for every response with status 200, `generate_3d_model`
returns exactly the response body bytes, unchanged. -/
theorem c7_success_bytes (resp : Response) (h : resp.status_code = 200) :
    generate_3d_model resp = .ok resp.content := by
  unfold generate_3d_model
  rw [if_pos h]

/-- Concrete check for C7 on arbitrary binary (non-JSON) content. -/
theorem c7_witness :
    generate_3d_model ⟨200, [0, 255, 17], none⟩ = .ok [0, 255, 17] :=
  c7_success_bytes ⟨200, [0, 255, 17], none⟩ rfl

/-- Claim C10: for every non-200 response whose body is not valid JSON,
`generate_3d_model` raises the JSON-decoding error coming out of
`response.json()`, never the API-error exception carrying a message. -/
theorem c10_invalid_json (resp : Response) (hs : resp.status_code ≠ 200)
    (hj : resp.json = none) :
    generate_3d_model resp = .error .jsonDecodeError
    ∧ ∀ m, generate_3d_model resp ≠ .error (.exception m) := by
  unfold generate_3d_model
  rw [if_neg hs, hj]
  exact ⟨rfl, fun m h => by simp at h⟩

/-- Concrete check for C10: a plain-text 500 body yields the JSON-decoding
error. -/
theorem c10_witness :
    generate_3d_model ⟨500, asciiBytes "Internal Server Error", none⟩
      = .error .jsonDecodeError :=
  (c10_invalid_json ⟨500, asciiBytes "Internal Server Error", none⟩
    (by decide) rfl).1

/-- The temporary directory as `convert_glb_to_stl` sees it: files are
identified by the fresh names `tempfile.NamedTemporaryFile` hands out,
modelled as a counter, with their byte contents. -/
structure TempFS where
  counter : Nat
  files : List (Nat × List Nat)
deriving DecidableEq

/-- What `convert_glb_to_stl` can raise: a failure from `trimesh.load` or
one from `mesh.export`; the surrounding try/except logs and re-raises. -/
inductive ConvError where
  | loadError (e : String)
  | exportError (e : String)
deriving DecidableEq

/-- `convert_glb_to_stl` (streamlit-cad-app.py lines 102-124).
`NamedTemporaryFile(suffix='.glb', delete=False)` allocates a fresh name and
the file persists after the `with` block closes it (delete=False).  The GLB
bytes are written to it, `trimesh.load` reads them back (the external mesh
library is a parameter `load`, its export a parameter `exportStl`), and only
after a successful export is `os.unlink` called on the temporary file; an
exception from load or export propagates without reaching the unlink. -/
def convert_glb_to_stl {Mesh : Type} (load : List Nat → Except String Mesh)
    (exportStl : Mesh → Except String (List Nat))
    (glb_data : List Nat) (fs : TempFS) :
    Except ConvError (List Nat) × TempFS :=
  let name := fs.counter
  let fs1 : TempFS := ⟨fs.counter + 1, fs.files ++ [(name, glb_data)]⟩
  match load glb_data with
  | .error e => (.error (.loadError e), fs1)
  | .ok mesh =>
    match exportStl mesh with
    | .error e => (.error (.exportError e), fs1)
    | .ok stl_bytes =>
      (.ok stl_bytes, ⟨fs1.counter, fs1.files.filter (fun p => p.1 != name)⟩)

/-- Counterexample to claim C2 as stated: when `trimesh.load` fails, the
call returns with the temporary file still present in the filesystem
(`delete=False` and the unlink is only reached on success), so the file is
not removed on every exit path. -/
theorem c2_counterexample :
    (convert_glb_to_stl (fun _ => (.error "unable to parse mesh" : Except String Unit))
      (fun _ => .ok []) [1, 2, 3] ⟨0, []⟩).1 = .error (.loadError "unable to parse mesh")
    ∧ ((convert_glb_to_stl (fun _ => (.error "unable to parse mesh" : Except String Unit))
      (fun _ => .ok []) [1, 2, 3] ⟨0, []⟩).2).files = [(0, [1, 2, 3])] :=
  ⟨rfl, rfl⟩

/-- Lookups in a key-filtered dictionary never hit the filtered key. -/
theorem lookup_filter_ne {β : Type} (l : List (Nat × β)) (k : Nat) :
    (l.filter (fun p => p.1 != k)).lookup k = none := by
  induction l with
  | nil => rfl
  | cons p l ih =>
    by_cases h : p.1 = k
    · simp [List.filter, h, ih]
    · simp only [List.filter]
      have hb : (p.1 != k) = true := by simpa using h
      rw [hb]
      simp only [List.lookup]
      have hk : (k == p.1) = false := by simpa using fun he => h he.symm
      rw [hk]
      exact ih

/-- Claim C2 amended: the temporary file created by `convert_glb_to_stl` is
removed before returning on the success path, but on a mesh-load or export
failure the call returns with the file still present. -/
theorem c2_amended {Mesh : Type} (load : List Nat → Except String Mesh)
    (exportStl : Mesh → Except String (List Nat))
    (glb_data : List Nat) (fs : TempFS) :
    (∀ stl_bytes fs2,
      convert_glb_to_stl load exportStl glb_data fs = (.ok stl_bytes, fs2) →
        fs2.files.lookup fs.counter = none)
    ∧ (∀ e fs2,
      convert_glb_to_stl load exportStl glb_data fs = (.error e, fs2) →
        (fs.counter, glb_data) ∈ fs2.files) := by
  constructor
  · intro stl_bytes fs2 h
    unfold convert_glb_to_stl at h
    cases hl : load glb_data with
    | error e =>
      simp only [hl] at h
      exact Except.noConfusion (congrArg Prod.fst h)
    | ok mesh =>
      simp only [hl] at h
      cases he : exportStl mesh with
      | error e =>
        simp only [he] at h
        exact Except.noConfusion (congrArg Prod.fst h)
      | ok stl2 =>
        simp only [he, Prod.mk.injEq] at h
        rw [← h.2]
        exact lookup_filter_ne _ _
  · intro e2 fs2 h
    unfold convert_glb_to_stl at h
    cases hl : load glb_data with
    | error e =>
      simp only [hl, Prod.mk.injEq] at h
      rw [← h.2]
      simp
    | ok mesh =>
      simp only [hl] at h
      cases he : exportStl mesh with
      | error e =>
        simp only [he, Prod.mk.injEq] at h
        rw [← h.2]
        simp
      | ok stl2 =>
        simp only [he] at h
        exact Except.noConfusion (congrArg Prod.fst h)

/-- Concrete checks for amended C2: on success the temporary file is gone,
on failure it remains. -/
theorem c2_witness :
    ((convert_glb_to_stl (fun _ => (.ok () : Except String Unit))
      (fun _ => .ok [7]) [9] ⟨0, []⟩).2).files.lookup 0 = none
    ∧ (0, [9]) ∈ ((convert_glb_to_stl (fun _ => (.error "bad" : Except String Unit))
      (fun _ => .ok [7]) [9] ⟨0, []⟩).2).files :=
  ⟨(c2_amended (fun _ => (.ok () : Except String Unit)) (fun _ => .ok [7])
      [9] ⟨0, []⟩).1 [7] (⟨1, [(0, [9])].filter (fun p => p.1 != 0)⟩) rfl,
   (c2_amended (fun _ => (.error "bad" : Except String Unit)) (fun _ => .ok [7])
      [9] ⟨0, []⟩).2 (.loadError "bad") ⟨1, [(0, [9])]⟩ rfl⟩

/-- The base64 alphabet used by `base64.b64encode`. -/
def b64Alphabet : List Char :=
  "ABCDEFGHIJKLMNOPQRSTUVWXYZabcdefghijklmnopqrstuvwxyz0123456789+/".data

/-- The alphabet character for a 6-bit value. -/
def encChar (n : Nat) : Char := b64Alphabet.getD n 'A'

/-- `base64.b64encode` on a byte string, producing the encoded characters:
each 3-byte group becomes 4 alphabet characters, a trailing group of 1 or 2
bytes is padded with `=`. -/
def b64encode : List Nat → List Char
  | [] => []
  | [b1] => [encChar (b1 / 4), encChar (b1 % 4 * 16), '=', '=']
  | [b1, b2] =>
    [encChar (b1 / 4), encChar (b1 % 4 * 16 + b2 / 16), encChar (b2 % 16 * 4), '=']
  | b1 :: b2 :: b3 :: rest =>
    encChar (b1 / 4) :: encChar (b1 % 4 * 16 + b2 / 16)
      :: encChar (b2 % 16 * 4 + b3 / 64) :: encChar (b3 % 64) :: b64encode rest

/-- Index of a character in an alphabet. -/
def decCharAux : List Char → Char → Option Nat
  | [], _ => none
  | a :: rest, c => if c = a then some 0 else (decCharAux rest c).map (· + 1)

/-- The 6-bit value of a base64 alphabet character. -/
def decChar (c : Char) : Option Nat := decCharAux b64Alphabet c

/-- Base64 decoding, inverse to `b64encode`: groups of four characters with
the standard `=` padding rules. -/
def b64decode : List Char → Option (List Nat)
  | [] => some []
  | c1 :: c2 :: c3 :: c4 :: rest =>
    if c3 = '=' ∧ c4 = '=' ∧ rest = [] then
      match decChar c1, decChar c2 with
      | some n1, some n2 => some [n1 * 4 + n2 / 16]
      | _, _ => none
    else if c4 = '=' ∧ rest = [] then
      match decChar c1, decChar c2, decChar c3 with
      | some n1, some n2, some n3 =>
        some [n1 * 4 + n2 / 16, n2 % 16 * 16 + n3 / 4]
      | _, _, _ => none
    else
      match decChar c1, decChar c2, decChar c3, decChar c4, b64decode rest with
      | some n1, some n2, some n3, some n4, some bs =>
        some ((n1 * 4 + n2 / 16) :: (n2 % 16 * 16 + n3 / 4) :: (n3 % 4 * 64 + n4) :: bs)
      | _, _, _, _, _ => none
  | _ => none

/-- Alphabet characters are never the padding character. -/
theorem encChar_ne_pad (n : Nat) : encChar n ≠ '=' := by
  by_cases h : n < 64
  · exact (by decide : ∀ m, m < 64 → encChar m ≠ '=') n h
  · unfold encChar
    have hlen : b64Alphabet.length ≤ n := by
      have h64 : b64Alphabet.length = 64 := rfl
      omega
    rw [List.getD_eq_getElem?_getD, List.getElem?_eq_none hlen]
    decide

/-- Alphabet characters are never a colon. -/
theorem encChar_ne_colon (n : Nat) : encChar n ≠ ':' := by
  by_cases h : n < 64
  · exact (by decide : ∀ m, m < 64 → encChar m ≠ ':') n h
  · unfold encChar
    have hlen : b64Alphabet.length ≤ n := by
      have h64 : b64Alphabet.length = 64 := rfl
      omega
    rw [List.getD_eq_getElem?_getD, List.getElem?_eq_none hlen]
    decide

/-- Decoding inverts the alphabet map on 6-bit values. -/
theorem decChar_encChar : ∀ n, n < 64 → decChar (encChar n) = some n := by decide

/-- The encoded form of a byte string never contains a colon: its characters
are alphabet characters and padding. -/
theorem b64encode_no_colon : ∀ (bs : List Nat), ∀ c ∈ b64encode bs, c ≠ ':'
  | [], c, hc => by simp [b64encode] at hc
  | [b1], c, hc => by
    simp only [b64encode, List.mem_cons, List.not_mem_nil, or_false] at hc
    rcases hc with h | h | h | h <;> subst h
    · exact encChar_ne_colon _
    · exact encChar_ne_colon _
    · decide
    · decide
  | [b1, b2], c, hc => by
    simp only [b64encode, List.mem_cons, List.not_mem_nil, or_false] at hc
    rcases hc with h | h | h | h <;> subst h
    · exact encChar_ne_colon _
    · exact encChar_ne_colon _
    · exact encChar_ne_colon _
    · decide
  | b1 :: b2 :: b3 :: rest, c, hc => by
    simp only [b64encode, List.mem_cons] at hc
    rcases hc with h | h | h | h | h
    · exact h ▸ encChar_ne_colon _
    · exact h ▸ encChar_ne_colon _
    · exact h ▸ encChar_ne_colon _
    · exact h ▸ encChar_ne_colon _
    · exact b64encode_no_colon rest c h

/-- Round trip: decoding the encoded form of a byte string (every byte below
256) recovers the bytes exactly. -/
theorem b64decode_encode : ∀ (bs : List Nat), (∀ b ∈ bs, b < 256) →
    b64decode (b64encode bs) = some bs
  | [], _ => by simp [b64encode, b64decode]
  | [b1], h => by
    have hb1 : b1 < 256 := h b1 (by simp)
    have h1 : decChar (encChar (b1 / 4)) = some (b1 / 4) :=
      decChar_encChar _ (by omega)
    have h2 : decChar (encChar (b1 % 4 * 16)) = some (b1 % 4 * 16) :=
      decChar_encChar _ (by omega)
    simp only [b64encode, b64decode, h1, h2]
    simp
    omega
  | [b1, b2], h => by
    have hb1 : b1 < 256 := h b1 (by simp)
    have hb2 : b2 < 256 := h b2 (by simp)
    have h1 : decChar (encChar (b1 / 4)) = some (b1 / 4) :=
      decChar_encChar _ (by omega)
    have h2 : decChar (encChar (b1 % 4 * 16 + b2 / 16))
        = some (b1 % 4 * 16 + b2 / 16) := decChar_encChar _ (by omega)
    have h3 : decChar (encChar (b2 % 16 * 4)) = some (b2 % 16 * 4) :=
      decChar_encChar _ (by omega)
    have hne : ¬ (encChar (b2 % 16 * 4) = '=' ∧ '=' = '=' ∧ ([] : List Char) = []) :=
      fun hc => encChar_ne_pad _ hc.1
    simp only [b64encode, b64decode, if_neg hne, h1, h2, h3]
    simp [encChar_ne_pad (b2 % 16 * 4)]
    omega
  | b1 :: b2 :: b3 :: rest, h => by
    have hb1 : b1 < 256 := h b1 (by simp)
    have hb2 : b2 < 256 := h b2 (by simp)
    have hb3 : b3 < 256 := h b3 (by simp)
    have ih := b64decode_encode rest (fun b hb => h b (by simp [hb]))
    have h1 : decChar (encChar (b1 / 4)) = some (b1 / 4) :=
      decChar_encChar _ (by omega)
    have h2 : decChar (encChar (b1 % 4 * 16 + b2 / 16))
        = some (b1 % 4 * 16 + b2 / 16) := decChar_encChar _ (by omega)
    have h3 : decChar (encChar (b2 % 16 * 4 + b3 / 64))
        = some (b2 % 16 * 4 + b3 / 64) := decChar_encChar _ (by omega)
    have h4 : decChar (encChar (b3 % 64)) = some (b3 % 64) :=
      decChar_encChar _ (by omega)
    have hne1 : ¬ (encChar (b2 % 16 * 4 + b3 / 64) = '='
        ∧ encChar (b3 % 64) = '=' ∧ b64encode rest = []) :=
      fun hc => encChar_ne_pad _ hc.1
    have hne2 : ¬ (encChar (b3 % 64) = '=' ∧ b64encode rest = []) :=
      fun hc => encChar_ne_pad _ hc.1
    simp only [b64encode, b64decode, if_neg hne1, if_neg hne2, h1, h2, h3, h4, ih]
    simp [encChar_ne_pad (b2 % 16 * 4 + b3 / 64), encChar_ne_pad (b3 % 64)]
    omega

/-- Whether the first list is an initial segment of the second. -/
def leadsWith : List Char → List Char → Bool
  | [], _ => true
  | _ :: _, [] => false
  | p :: ps, c :: cs => p == c && leadsWith ps cs

/-- Number of positions of a list at which the pattern occurs. -/
def countSub (pat : List Char) : List Char → Nat
  | [] => 0
  | c :: rest => (if leadsWith pat (c :: rest) then 1 else 0) + countSub pat rest

/-- A matching position fixes the characters under the pattern. -/
theorem leadsWith_getElem : ∀ (pat l : List Char), leadsWith pat l = true →
    ∀ i, i < pat.length → l[i]? = pat[i]?
  | [], _, _, i, hi => by simp at hi
  | p :: ps, [], h, _, _ => by simp [leadsWith] at h
  | p :: ps, c :: cs, h, i, hi => by
    simp only [leadsWith, Bool.and_eq_true, beq_iff_eq] at h
    cases i with
    | zero => simp [h.1]
    | succ j =>
      simp only [List.getElem?_cons_succ]
      exact leadsWith_getElem ps cs h.2 j (by simpa using hi)

/-- A match is insensitive to anything appended beyond the pattern. -/
theorem leadsWith_append_of_le : ∀ (pat l r : List Char), pat.length ≤ l.length →
    leadsWith pat (l ++ r) = leadsWith pat l
  | [], _, _, _ => by simp [leadsWith]
  | p :: ps, [], r, h => by simp at h
  | p :: ps, c :: cs, r, h => by
    simp only [List.cons_append, leadsWith, List.append_eq]
    rw [leadsWith_append_of_le ps cs r (by simpa using h)]

/-- No occurrence of a pattern whose character at index 4 is a colon can
start inside a colon-free block that is followed by a block whose first four
characters are not colons. -/
theorem countSub_skip (pat : List Char) (hpat : pat[4]? = some ':') :
    ∀ (M B : List Char), (∀ c ∈ M, c ≠ ':') → (∀ j, j < 4 → B[j]? ≠ some ':') →
      countSub pat (M ++ B) = countSub pat B
  | [], B, _, _ => by simp
  | m :: M, B, hM, hB => by
    have ih := countSub_skip pat hpat M B
      (fun c hc => hM c (List.mem_cons_of_mem _ hc)) hB
    simp only [List.cons_append, countSub, List.append_eq]
    rw [ih]
    have hnot : ¬ leadsWith pat (m :: (M ++ B)) = true := by
      intro hl
      have hlen : 4 < pat.length := by
        by_contra hc
        rw [List.getElem?_eq_none (by omega)] at hpat
        exact Option.noConfusion hpat
      have h4 : (m :: (M ++ B))[4]? = some ':' := by
        rw [leadsWith_getElem pat _ hl 4 hlen]
        exact hpat
      rw [show m :: (M ++ B) = (m :: M) ++ B from rfl] at h4
      by_cases hlen2 : 4 < (m :: M).length
      · rw [List.getElem?_append_left hlen2] at h4
        have hmem : ':' ∈ m :: M := by
          rcases List.getElem?_eq_some_iff.mp h4 with ⟨hh, he⟩
          exact he ▸ List.getElem_mem hh
        exact hM _ hmem rfl
      · push_neg at hlen2
        rw [List.getElem?_append_right (by omega)] at h4
        exact hB (4 - (m :: M).length)
          (by simp only [List.length_cons]; omega) h4
    simp [hnot]

/-- Occurrence counting distributes over an append point that no occurrence
can straddle: the head block never shows the pattern's first character at
its last (pattern-length minus one) positions. -/
theorem countSub_split (pat : List Char) (d : Char) (hd : pat[0]? = some d) :
    ∀ (P R : List Char),
      (∀ i, i < P.length → P.length < i + pat.length → P[i]? ≠ some d) →
      countSub pat (P ++ R) = countSub pat P + countSub pat R
  | [], R, _ => by simp [countSub]
  | p :: P, R, hP => by
    have hP2 : ∀ i, i < P.length → P.length < i + pat.length → P[i]? ≠ some d := by
      intro i h1 h2
      have h3 := hP (i + 1) (by simp only [List.length_cons]; omega)
        (by simp only [List.length_cons]; omega)
      simpa using h3
    have ih := countSub_split pat d hd P R hP2
    simp only [List.cons_append, countSub, List.append_eq]
    rw [ih]
    have heq : leadsWith pat (p :: (P ++ R)) = leadsWith pat (p :: P) := by
      by_cases hlen : pat.length ≤ (p :: P).length
      · have h := leadsWith_append_of_le pat (p :: P) R hlen
        simpa using h
      · obtain ⟨q, qs, rfl⟩ : ∃ q qs, pat = q :: qs := by
          cases pat with
          | nil => simp at hd
          | cons q qs => exact ⟨q, qs, rfl⟩
        have hq : q = d := by simpa using hd
        have hp : p ≠ d := by
          have h0 := hP 0 (by simp)
            (by simp only [List.length_cons] at hlen ⊢; omega)
          simpa using h0
        have hqp : (q == p) = false := by
          rw [hq]
          exact beq_eq_false_iff_ne.mpr (fun he => hp he.symm)
        simp [leadsWith, hqp]
    simp only [heq]
    omega

/-- Fixed head of the viewer f-string (streamlit-cad-app.py lines 67-86), up
to and including the quote opening the src attribute; CSS braces appear as
escaped brace characters. -/
def viewerPre : String := "\n        <script type=\"module\" src=\"https://unpkg.com/@google/model-viewer@3.4.0/dist/model-viewer.min.js\"></script>\n        <style>\n            model-viewer \x7b\n                width: 100%;\n                height: 400px;\n                background-color: #f0f0f0;\n                margin: 0 auto;\n            \x7d\n            .container \x7b\n                display: flex;\n                justify-content: center;\n                width: 100%;\n                max-width: 800px;\n                margin: 0 auto;\n            \x7d\n        </style>\n        <div class=\"container\">\n            <model-viewer\n                src=\""

/-- Scheme and media-type part of the embedded data URI. -/
def dataUriScheme : String := "data:model/gltf-binary;base64,"

/-- Fixed tail of the viewer f-string (streamlit-cad-app.py lines 86-100),
from the quote closing the src attribute to the end. -/
def viewerPost : String := "\"\n                auto-rotate\n                camera-controls\n                shadow-intensity=\"1\"\n                shadow-softness=\"1\"\n                exposure=\"0.75\"\n                environment-image=\"neutral\"\n                auto-rotate-delay=\"0\"\n                rotation-per-second=\"30deg\"\n                interaction-prompt=\"auto\"\n                ar\n                style=\"width: 100%; height: 400px;\"\n            ></model-viewer>\n        </div>\n    "

/-- The `blob_url` local of `create_model_viewer_html` (line 65): the data
URI whose payload is the base64-encoded artifact. -/
def blob_url (base64_model : List Char) : List Char :=
  dataUriScheme.data ++ base64_model

/-- `create_model_viewer_html` (streamlit-cad-app.py lines 62-100), at the
character level: the fixed template head, the data URI and the fixed
template tail. -/
def create_model_viewer_html (model_data : List Nat) : List Char :=
  viewerPre.data ++ blob_url (b64encode model_data) ++ viewerPost.data

/-- The pattern identifying a data URI. -/
def dataPat : List Char := "data:".data

/-- The fixed part of the markup before the payload never shows the
pattern's first character within pattern reach of its end. -/
theorem viewer_head_no_d :
    ∀ i, i < (viewerPre.data ++ dataUriScheme.data).length →
      (viewerPre.data ++ dataUriScheme.data).length < i + dataPat.length →
      (viewerPre.data ++ dataUriScheme.data)[i]? ≠ some 'd' := by decide

/-- The first four characters after the payload contain no colon. -/
theorem viewer_tail_colon_free : ∀ j, j < 4 → viewerPost.data[j]? ≠ some ':' := by
  decide

/-- The fixed part of the markup before the payload contains the data-URI
pattern exactly once. -/
theorem viewer_head_count :
    countSub dataPat (viewerPre.data ++ dataUriScheme.data) = 1 := by decide

/-- The fixed part of the markup after the payload does not contain the
data-URI pattern. -/
theorem viewer_tail_count : countSub dataPat viewerPost.data = 0 := by decide

/-- Claim C8: for every artifact byte string the viewer markup decomposes as
fixed head, data URI with base64 payload, fixed tail; the data-URI pattern
occurs exactly once in the whole markup; and base64-decoding the payload
yields the original artifact bytes exactly. -/
theorem c8_viewer_roundtrip (model_data : List Nat)
    (h : ∀ b ∈ model_data, b < 256) :
    create_model_viewer_html model_data
      = (viewerPre.data ++ dataUriScheme.data)
        ++ (b64encode model_data ++ viewerPost.data)
    ∧ countSub dataPat (create_model_viewer_html model_data) = 1
    ∧ b64decode (b64encode model_data) = some model_data := by
  have hdecomp : create_model_viewer_html model_data
      = (viewerPre.data ++ dataUriScheme.data)
        ++ (b64encode model_data ++ viewerPost.data) := by
    unfold create_model_viewer_html blob_url
    simp [List.append_assoc]
  refine ⟨hdecomp, ?_, b64decode_encode model_data h⟩
  rw [hdecomp]
  rw [countSub_split dataPat 'd' (by decide) _ _ viewer_head_no_d]
  rw [countSub_skip dataPat (by decide) _ _
    (b64encode_no_colon model_data) viewer_tail_colon_free]
  rw [viewer_head_count, viewer_tail_count]

/-- Concrete check for C8 on a small binary artifact. -/
theorem c8_witness :
    countSub dataPat (create_model_viewer_html [103, 108, 84, 70, 0, 255]) = 1
    ∧ b64decode (b64encode [103, 108, 84, 70, 0, 255])
        = some [103, 108, 84, 70, 0, 255] :=
  ⟨(c8_viewer_roundtrip [103, 108, 84, 70, 0, 255] (by decide)).2.1,
   (c8_viewer_roundtrip [103, 108, 84, 70, 0, 255] (by decide)).2.2⟩
